import Mathlib

/-!
The package valiface: obtaining an `interface{}` from a `reflect.Value`.

A shallow embedding of `valiface.go`.

* Machine model: 64-bit, little-endian, byte-addressed memory.  A memory maps
  byte addresses to bytes, or to nothing; an address mapped to nothing faults when
  it is read (the null page of a Go process is unmapped).
* `uintptr` arithmetic wraps modulo `2 ^ 64`.
* `reflect.Value` is the three-word record `(typ, ptr, flag)`.  The function
  `Interface` receives it by value, so a copy lives at the address `&v`
  (`base` below) and the code reads that copy through raw offsets.
* An `interface{}` is the two-word record `(typ, data)`; the nil interface is
  the record with both words zero.
-/

namespace Valiface

/-! ## Constants -/

/-- The panic message of `init`. -/
def unknownLayout : String := "reflect.Value known layout changed"

/-- The panic message of `Interface`. -/
def badIndir : String := "bad indir"

/-- Bit of the one-byte `kind` of an `rtype`. -/
def kindDirectIface : Nat := 1 <<< 5

/-- Bit of the `flag` word of a `reflect.Value`. -/
def flagIndir : Nat := 1 <<< 7

/-- Bit of the `flag` word of a `reflect.Value`. -/
def flagAddr : Nat := 1 <<< 8

/-- Addition on `uintptr`. -/
def uadd (a b : Nat) : Nat := (a + b) % 2 ^ 64

/-! ## The saved field offsets and `init` -/

/-- The four package-level variables `typOffset, ptrOffset, typKindOffset, flagOffset`. -/
structure Offsets where
  typOffset : Nat
  ptrOffset : Nat
  typKindOffset : Nat
  flagOffset : Nat
  deriving DecidableEq

/-- What `init` reads of a `reflect.StructField`: its `Name`, its `Offset`, and, when
its `Type` is a pointer to a structure, the fields (name, offset) of `Type.Elem()`. -/
structure StructField where
  Name : String
  Offset : Nat
  Elem : Option (List (String × Nat))
  deriving DecidableEq

/-- How `init` can stop: the package's own panic, or a panic raised inside the
reflect library (`Elem` of a type that has no element type). -/
inductive InitFault where
  | unknownLayout
  | reflectPanic
  deriving DecidableEq

/-- Lookup of a field by name in a structure type: `(offset, found)`. -/
def FieldByName (fs : List (String × Nat)) (name : String) : Option Nat :=
  match fs with
  | [] => none
  | f :: rest => if f.1 = name then some f.2 else FieldByName rest name

/-- One iteration of the loop of `init`: the `switch sf.Name`. -/
def initField (o : Offsets) (sf : StructField) : Except InitFault Offsets :=
  if sf.Name = "typ" then
    match sf.Elem with
    | none => .error .reflectPanic
    | some fs =>
      match FieldByName fs "kind" with
      | none => .error .unknownLayout
      | some ktOffset =>
        .ok { o with typOffset := sf.Offset, typKindOffset := uadd ktOffset sf.Offset }
  else if sf.Name = "ptr" then
    .ok { o with ptrOffset := sf.Offset }
  else if sf.Name = "flag" then
    .ok { o with flagOffset := sf.Offset }
  else
    .error .unknownLayout

/-- The loop of `init` over the fields `t.Field(0), ..., t.Field(t.NumField()-1)`,
from the offsets accumulated so far. -/
def initLoop (o : Offsets) (t : List StructField) : Except InitFault Offsets :=
  match t with
  | [] => .ok o
  | sf :: rest =>
    match initField o sf with
    | .error e => .error e
    | .ok o1 => initLoop o1 rest

/-- The function `init`, run on the declared fields of the type `reflect.Value`.
The package-level variables start at zero. -/
def init (t : List StructField) : Except InitFault Offsets :=
  initLoop ⟨0, 0, 0, 0⟩ t

/-! ## Memory -/

/-- Byte-addressed memory; `none` is an unmapped address. -/
abbrev Mem := Nat → Option Nat

/-- A one-byte load (`*(*uint8)(p)`). -/
def loadByte (m : Mem) (a : Nat) : Option Nat :=
  match m a with
  | none => none
  | some b => some (b % 256)

/-- A little-endian load of `n` bytes starting at `a`. -/
def loadLE (m : Mem) (a : Nat) (n : Nat) : Option Nat :=
  match n with
  | 0 => some 0
  | k + 1 =>
    match loadByte m a, loadLE m (a + 1) k with
    | some b, some r => some (b + 256 * r)
    | _, _ => none

/-- A one-word load (`*(*unsafe.Pointer)(p)`, `*(*uintptr)(p)`). -/
def loadWord (m : Mem) (a : Nat) : Option Nat := loadLE m a 8

/-- Memory after a little-endian one-word store of `w` at `a`. -/
def storeWord (m : Mem) (a w : Nat) : Mem :=
  fun x => if a ≤ x ∧ x < a + 8 then some (w / 256 ^ (x - a) % 256) else m x

/-- Memory after a one-byte store of `b` at `a`. -/
def storeByte (m : Mem) (a b : Nat) : Mem :=
  fun x => if x = a then some (b % 256) else m x

/-- The memory in which nothing is mapped. -/
def emptyMem : Mem := fun _ => none

/-! ## Values and interfaces -/

/-- The record `reflect.Value`. -/
structure Value where
  typ : Nat
  ptr : Nat
  flag : Nat
  deriving DecidableEq

/-- The kind `reflect.Interface`. -/
def kindInterface : Nat := 20

/-- The method `Kind` of `reflect.Value`: the low five bits of the flag word. -/
def Value.Kind (v : Value) : Nat := v.flag &&& ((1 <<< 5) - 1)

/-- The record `ifaceWords`: the two words of an `interface{}`. -/
structure ifaceWords where
  typ : Nat
  data : Nat
  deriving DecidableEq

/-- The nil `interface{}`. -/
def nilIface : ifaceWords := ⟨0, 0⟩

/-- A two-word load (`*(*interface{})(p)`). -/
def loadIface (m : Mem) (a : Nat) : Option ifaceWords :=
  match loadWord m a, loadWord m (uadd a 8) with
  | some t, some d => some ⟨t, d⟩
  | _, _ => none

/-- How a call ends: it returns an `interface{}`, it panics with a message, or a
load hits an unmapped address. -/
inductive Outcome where
  | ret (i : ifaceWords)
  | panic (msg : String)
  | fault (addr : Nat)
  deriving DecidableEq

/-- Whether a call ended without returning. -/
def Outcome.isFault (o : Outcome) : Bool :=
  match o with
  | .ret _ => false
  | _ => true

/-- A call of `Interface`: how it ends, and the successive contents of the local
`i` (oldest first) from its declaration on. -/
structure Run where
  out : Outcome
  hist : List ifaceWords
  deriving DecidableEq

/-- The function `Interface`.  `off` holds the package-level offsets, `m` is the memory,
`base` is `&v`, the address of the argument copy, and `v` is the argument. -/
def Interface (off : Offsets) (m : Mem) (base : Nat) (v : Value) : Run :=
  let ptr := uadd base off.ptrOffset
  if v.Kind = kindInterface then
    match loadIface m ptr with
    | none => ⟨.fault ptr, []⟩
    | some e => ⟨.ret e, []⟩
  else
    let typPtr := uadd base off.typOffset
    if typPtr = 0 then
      ⟨.ret nilIface, []⟩
    else
      match loadWord m typPtr with
      | none => ⟨.fault typPtr, []⟩
      | some typ =>
        match loadByte m (uadd typ off.typKindOffset) with
        | none => ⟨.fault (uadd typ off.typKindOffset), []⟩
        | some typKind =>
          match loadWord m (uadd base off.flagOffset) with
          | none => ⟨.fault (uadd base off.flagOffset), []⟩
          | some flag =>
            let i : ifaceWords := ⟨0, 0⟩
            if typKind &&& kindDirectIface = 0 then
              if flag &&& flagIndir = 0 then
                ⟨.panic badIndir, [i]⟩
              else if flag &&& flagAddr ≠ 0 then
                ⟨.ret nilIface, [i]⟩
              else
                let i1 : ifaceWords := { i with data := ptr }
                let i2 : ifaceWords := { i1 with typ := typ }
                ⟨.ret i2, [i, i1, i2]⟩
            else if flag &&& flagIndir ≠ 0 then
              match loadWord m ptr with
              | none => ⟨.fault ptr, [i]⟩
              | some d =>
                let i1 : ifaceWords := { i with data := d }
                let i2 : ifaceWords := { i1 with typ := typ }
                ⟨.ret i2, [i, i1, i2]⟩
            else
              let i1 : ifaceWords := { i with data := ptr }
              let i2 : ifaceWords := { i1 with typ := typ }
              ⟨.ret i2, [i, i1, i2]⟩

/-- The argument copy is in memory at `base`, at the saved offsets, and `base` is
the address of a variable: the address of its `typ` field is not null. -/
def Holds (off : Offsets) (m : Mem) (base : Nat) (v : Value) : Prop :=
  uadd base off.typOffset ≠ 0 ∧
  loadWord m (uadd base off.typOffset) = some v.typ ∧
  loadWord m (uadd base off.ptrOffset) = some v.ptr ∧
  loadWord m (uadd base off.flagOffset) = some v.flag

instance Holds.decidable (off : Offsets) (m : Mem) (base : Nat) (v : Value) :
    Decidable (Holds off m base v) := by
  unfold Holds; infer_instance

/-- A declared field on which the loop of `init` stops with the package's own panic:
its name is none of `typ`, `ptr`, `flag`, or it is named `typ` and the structure it
points to has no field named `kind`. -/
def Rejected (sf : StructField) : Prop :=
  (sf.Name ≠ "typ" ∧ sf.Name ≠ "ptr" ∧ sf.Name ≠ "flag") ∨
  (sf.Name = "typ" ∧ ∃ fs, sf.Elem = some fs ∧ FieldByName fs "kind" = none)

/-- A boolean test for `Rejected`. -/
def rejected (sf : StructField) : Bool :=
  (sf.Name != "typ" && sf.Name != "ptr" && sf.Name != "flag") ||
  (sf.Name == "typ" &&
    match sf.Elem with
    | some fs => (FieldByName fs "kind").isNone
    | none => false)

/-- The container of the specification for a handle with kind byte `k`, in the words of
the specification (the conversion of the reflect library): the type word is `typ`; the
data word is the content `v.ptr` of the data field when the direct bit of `k` is clear,
the word stored in memory at the address `v.ptr` when the direct bit and the indirect
bit are set, and `v.ptr` when the direct bit is set and the indirect bit is clear. -/
def specContainer (m : Mem) (v : Value) (k : Nat) : Option ifaceWords :=
  if k &&& kindDirectIface = 0 then
    some ⟨v.typ, v.ptr⟩
  else if v.flag &&& flagIndir ≠ 0 then
    match loadWord m v.ptr with
    | some d => some ⟨v.typ, d⟩
    | none => none
  else
    some ⟨v.typ, v.ptr⟩

/-! ## Concrete layouts and memories -/

/-- The fields of an `rtype` on a 64-bit target, up to `kind`. -/
def rtypeFields : List (String × Nat) :=
  [("size", 0), ("ptrdata", 8), ("hash", 16), ("tflag", 20), ("align", 21),
   ("fieldAlign", 22), ("kind", 23)]

/-- The declared fields of `reflect.Value` on a 64-bit target. -/
def reflectValue : List StructField :=
  [⟨"typ", 0, some rtypeFields⟩, ⟨"ptr", 8, none⟩, ⟨"flag", 16, none⟩]

/-- The offsets `init` saves for `reflectValue`. -/
def stdOffsets : Offsets := ⟨0, 8, 23, 16⟩

/-- Memory holding the argument copy `v` at `base` in the layout `typ, ptr, flag`. -/
def withValue (m : Mem) (base : Nat) (v : Value) : Mem :=
  storeWord (storeWord (storeWord m base v.typ) (base + 8) v.ptr) (base + 16) v.flag


/-- The declared fields of a `reflect.Value` whose fields have been reordered to
`flag, typ, ptr`. -/
def reorderedValue : List StructField :=
  [⟨"flag", 0, none⟩, ⟨"typ", 8, some rtypeFields⟩, ⟨"ptr", 16, none⟩]

/-- The declared fields of a `reflect.Value` that has lost its `ptr` field. -/
def shrunkValue : List StructField :=
  [⟨"typ", 0, some rtypeFields⟩, ⟨"flag", 8, none⟩]

/-- The declared fields of a `reflect.Value` that has gained a field. -/
def grownValue : List StructField :=
  [⟨"typ", 0, some rtypeFields⟩, ⟨"ptr", 8, none⟩, ⟨"flag", 16, none⟩, ⟨"extra", 24, none⟩]

/-- The handle `reflect.ValueOf(42)`: its type is at 16384, the integer is stored at
24576, the kind is `Int` (2) and the value is indirect. -/
def intValue : Value := ⟨16384, 24576, 2 ||| flagIndir⟩

/-- Memory for `intValue`: the argument copy at 8192, the kind byte `Int` of the type,
and the integer 42 at 24576. -/
def intMem : Mem :=
  storeWord (storeByte (withValue emptyMem 8192 intValue) (16384 + 23) 2) 24576 42

/-- The handle `reflect.ValueOf((*int)(nil))`: the kind is `Ptr` (22), the data word is
the null pointer itself and the value is not indirect. -/
def nilPtrValue : Value := ⟨16384, 0, 22⟩

/-- Memory for `nilPtrValue`: the argument copy at 8192 and the kind byte of a pointer
type, `Ptr` with the direct bit. -/
def nilPtrMem : Mem :=
  storeByte (withValue emptyMem 8192 nilPtrValue) (16384 + 23) (22 ||| kindDirectIface)

/-- A handle of a pointer type whose pointer 32768 is stored at 24576: the kind is `Ptr`
and the value is indirect. -/
def indirPtrValue : Value := ⟨16384, 24576, 22 ||| flagIndir⟩

/-- Memory for `indirPtrValue`. -/
def indirPtrMem : Mem :=
  storeWord (storeByte (withValue emptyMem 8192 indirPtrValue) (16384 + 23)
    (22 ||| kindDirectIface)) 24576 32768

/-- The zero handle `reflect.Value{}`. -/
def zeroValue : Value := ⟨0, 0, 0⟩

/-- Memory for `zeroValue`: only the argument copy at 8192 is mapped. -/
def zeroMem : Mem := withValue emptyMem 8192 zeroValue

/-- A handle of kind `Interface` (20), indirect and addressable, that wraps the
interface stored at 24576. -/
def ifaceValue : Value := ⟨16384, 24576, 20 ||| flagIndir ||| flagAddr⟩

/-- Memory for `ifaceValue`: the argument copy at 8192, the kind byte `Interface` of the
type, and at 24576 the wrapped interface, with type word 32768 and data word 40960. -/
def ifaceMem : Mem :=
  storeWord (storeWord (storeByte (withValue emptyMem 8192 ifaceValue) (16384 + 23) 20)
    24576 32768) (24576 + 8) 40960

/-- A handle of a structure type (kind `Struct`, 25) reached through a pointer: indirect
and addressable. -/
def addrStructValue : Value := ⟨16384, 24576, 25 ||| flagIndir ||| flagAddr⟩

/-- Memory for `addrStructValue`. -/
def addrStructMem : Mem :=
  storeByte (withValue emptyMem 8192 addrStructValue) (16384 + 23) 25

/-- A handle of kind `Int` whose flag word lacks the indirect bit. -/
def badIntValue : Value := ⟨16384, 24576, 2 ||| flagAddr⟩

/-- Memory for `badIntValue`. -/
def badIntMem : Mem :=
  storeByte (withValue emptyMem 8192 badIntValue) (16384 + 23) 2

/-! ## What `Interface` computes -/

/-- The run of `Interface` on a handle that is not of kind `Interface`, whose argument
copy is in memory and whose kind byte `k` can be read. -/
theorem Interface_of_not_interface (off : Offsets) (m : Mem) (base : Nat) (v : Value) (k : Nat)
    (hv : Holds off m base v) (hkind : v.Kind ≠ kindInterface)
    (hk : loadByte m (uadd v.typ off.typKindOffset) = some k) :
    Interface off m base v =
      if k &&& kindDirectIface = 0 then
        if v.flag &&& flagIndir = 0 then
          ⟨.panic badIndir, [⟨0, 0⟩]⟩
        else if v.flag &&& flagAddr ≠ 0 then
          ⟨.ret nilIface, [⟨0, 0⟩]⟩
        else
          ⟨.ret ⟨v.typ, uadd base off.ptrOffset⟩,
            [⟨0, 0⟩, ⟨0, uadd base off.ptrOffset⟩, ⟨v.typ, uadd base off.ptrOffset⟩]⟩
      else if v.flag &&& flagIndir ≠ 0 then
        ⟨.ret ⟨v.typ, v.ptr⟩, [⟨0, 0⟩, ⟨0, v.ptr⟩, ⟨v.typ, v.ptr⟩]⟩
      else
        ⟨.ret ⟨v.typ, uadd base off.ptrOffset⟩,
          [⟨0, 0⟩, ⟨0, uadd base off.ptrOffset⟩, ⟨v.typ, uadd base off.ptrOffset⟩]⟩ := by
  obtain ⟨h0, h1, h2, h3⟩ := hv
  simp only [Interface, if_neg hkind, if_neg h0, h1, h2, h3, hk]

/-- The run of `Interface` on a handle of kind `Interface`: the two words loaded at the
address of the data field of the argument copy. -/
theorem Interface_of_interface (off : Offsets) (m : Mem) (base : Nat) (v : Value)
    (hkind : v.Kind = kindInterface) :
    Interface off m base v =
      match loadIface m (uadd base off.ptrOffset) with
      | none => ⟨.fault (uadd base off.ptrOffset), []⟩
      | some e => ⟨.ret e, []⟩ := by
  simp only [Interface, if_pos hkind]

/-- The run of `Interface` on a handle that is not of kind `Interface` and whose type
address is null, in a memory whose null page is not mapped at the kind offset: the load
of the kind byte faults. -/
theorem Interface_of_null_typ (off : Offsets) (m : Mem) (base : Nat) (v : Value)
    (hv : Holds off m base v) (hkind : v.Kind ≠ kindInterface) (htyp : v.typ = 0)
    (hnull : m (uadd 0 off.typKindOffset) = none) :
    Interface off m base v = ⟨.fault (uadd 0 off.typKindOffset), []⟩ := by
  obtain ⟨h0, h1, _, _⟩ := hv
  have hb : loadByte m (uadd 0 off.typKindOffset) = none := by
    simp only [loadByte, hnull]
  rw [htyp] at h1
  simp only [Interface, if_neg hkind, if_neg h0, h1, hb]

/-- The predicate `Rejected` and its boolean test agree. -/
theorem rejected_iff (sf : StructField) : rejected sf = true ↔ Rejected sf := by
  unfold rejected Rejected
  cases hE : sf.Elem with
  | none => simp [and_assoc]
  | some fs =>
    cases hK : FieldByName fs "kind" with
    | none => simp [hK, and_assoc]
    | some kt => simp [hK, and_assoc]

/-! ## The loop of `init` -/

/-- One iteration of the loop of `init` stops with the package's own panic exactly on a
rejected field. -/
theorem initField_unknownLayout_iff (o : Offsets) (sf : StructField) :
    initField o sf = .error .unknownLayout ↔ Rejected sf := by
  unfold initField Rejected
  by_cases h1 : sf.Name = "typ"
  · rw [if_pos h1]
    cases hE : sf.Elem with
    | none => simp [h1]
    | some fs =>
      cases hK : FieldByName fs "kind" with
      | none => simp [h1, hK]
      | some kt => simp [h1, hK]
  · rw [if_neg h1]
    by_cases h2 : sf.Name = "ptr"
    · rw [if_pos h2]; simp [h1, h2]
    · rw [if_neg h2]
      by_cases h3 : sf.Name = "flag"
      · rw [if_pos h3]; simp [h1, h3]
      · rw [if_neg h3]; simp [h1, h2, h3]

/-- One iteration of the loop of `init` on a field that is not rejected, and whose type
is a pointer to a structure when it is named `typ`, saves an offset. -/
theorem initField_ok_of_not_rejected (o : Offsets) (sf : StructField)
    (hptr : sf.Name = "typ" → sf.Elem ≠ none) (hr : ¬ Rejected sf) :
    ∃ o1, initField o sf = .ok o1 := by
  unfold initField
  unfold Rejected at hr
  by_cases h1 : sf.Name = "typ"
  · rw [if_pos h1]
    cases hE : sf.Elem with
    | none => exact absurd hE (hptr h1)
    | some fs =>
      cases hK : FieldByName fs "kind" with
      | none => exact absurd (Or.inr ⟨h1, fs, hE, hK⟩) hr
      | some kt => simp only [hK]; exact ⟨_, rfl⟩
  · rw [if_neg h1]
    by_cases h2 : sf.Name = "ptr"
    · rw [if_pos h2]; exact ⟨_, rfl⟩
    · rw [if_neg h2]
      by_cases h3 : sf.Name = "flag"
      · rw [if_pos h3]; exact ⟨_, rfl⟩
      · exact absurd (Or.inl ⟨h1, h2, h3⟩) hr

/-- The loop of `init`, from any saved offsets: it stops with the package's own panic
exactly when some field is rejected, and it runs to the end exactly when none is. -/
theorem initLoop_outcome (t : List StructField) (o : Offsets)
    (hptr : ∀ sf ∈ t, sf.Name = "typ" → sf.Elem ≠ none) :
    (initLoop o t = .error .unknownLayout ↔ ∃ sf ∈ t, Rejected sf) ∧
    ((∃ o1, initLoop o t = .ok o1) ↔ ¬ ∃ sf ∈ t, Rejected sf) := by
  induction t generalizing o with
  | nil => simp [initLoop]
  | cons sf rest ih =>
    have hsf : sf.Name = "typ" → sf.Elem ≠ none := hptr sf (List.mem_cons_self _ _)
    have hrest : ∀ x ∈ rest, x.Name = "typ" → x.Elem ≠ none :=
      fun x hx => hptr x (List.mem_cons_of_mem _ hx)
    by_cases hr : Rejected sf
    · have he : initField o sf = .error .unknownLayout :=
        (initField_unknownLayout_iff o sf).2 hr
      have hex : ∃ x ∈ sf :: rest, Rejected x := ⟨sf, List.mem_cons_self _ _, hr⟩
      have hl : initLoop o (sf :: rest) = .error .unknownLayout := by
        simp only [initLoop, he]
      rw [hl]
      exact ⟨⟨fun _ => hex, fun _ => rfl⟩,
        ⟨fun h => (by obtain ⟨o1, h1⟩ := h; cases h1), fun h => absurd hex h⟩⟩
    · obtain ⟨o1, hok⟩ := initField_ok_of_not_rejected o sf hsf hr
      have hiff : (∃ x ∈ sf :: rest, Rejected x) ↔ ∃ x ∈ rest, Rejected x := by
        constructor
        · rintro ⟨x, hx, hxr⟩
          rcases List.mem_cons.1 hx with rfl | hx1
          · exact absurd hxr hr
          · exact ⟨x, hx1, hxr⟩
        · rintro ⟨x, hx, hxr⟩
          exact ⟨x, List.mem_cons_of_mem _ hx, hxr⟩
      have hl : initLoop o (sf :: rest) = initLoop o1 rest := by
        simp only [initLoop, hok]
      rw [hl, hiff]
      exact ih o1 hrest

/-! ## The claims about `Interface` -/

/-- C1 (evaluation of the code): `Interface` does not return the container of the
conversion of the reflect library.  On the indirect handle of a pointer type, whose data
field holds the address 24576 at which the pointer 32768 is stored, that container is
(16384, 32768) and `Interface` returns (16384, 24576), the content of the data field,
one dereference short.  In the two other cases the container has the content of the data
field as its data word (24576 for the handle of the integer 42, the null pointer for the
handle of a null pointer) and `Interface` returns the address 8200 of that field. -/
theorem Interface_differs_from_specContainer :
    (Holds stdOffsets indirPtrMem 8192 indirPtrValue ∧
      indirPtrValue.Kind ≠ kindInterface ∧
      loadByte indirPtrMem (uadd indirPtrValue.typ stdOffsets.typKindOffset) = some 54 ∧
      specContainer indirPtrMem indirPtrValue 54 = some ⟨16384, 32768⟩ ∧
      (Interface stdOffsets indirPtrMem 8192 indirPtrValue).out = .ret ⟨16384, 24576⟩) ∧
    (Holds stdOffsets intMem 8192 intValue ∧
      intValue.Kind ≠ kindInterface ∧
      loadByte intMem (uadd intValue.typ stdOffsets.typKindOffset) = some 2 ∧
      specContainer intMem intValue 2 = some ⟨16384, 24576⟩ ∧
      (Interface stdOffsets intMem 8192 intValue).out = .ret ⟨16384, 8200⟩) ∧
    (Holds stdOffsets nilPtrMem 8192 nilPtrValue ∧
      nilPtrValue.Kind ≠ kindInterface ∧
      loadByte nilPtrMem (uadd nilPtrValue.typ stdOffsets.typKindOffset) = some 54 ∧
      specContainer nilPtrMem nilPtrValue 54 = some ⟨16384, 0⟩ ∧
      (Interface stdOffsets nilPtrMem 8192 nilPtrValue).out = .ret ⟨16384, 8200⟩) := by
  decide

/-- C2 (evaluation of the code): on the handle of the integer 42, stored at 24576,
`Interface` returns the data word 8200, the address of the data field of the argument
copy; the word in memory there is the address 24576 and not the integer 42. -/
theorem Interface_int_42_data :
    Holds stdOffsets intMem 8192 intValue ∧
    intValue.Kind ≠ kindInterface ∧
    loadByte intMem (uadd intValue.typ stdOffsets.typKindOffset) = some 2 ∧
    intValue.flag = 2 ||| 128 ∧
    loadWord intMem intValue.ptr = some 42 ∧
    (Interface stdOffsets intMem 8192 intValue).out = .ret ⟨16384, 8200⟩ ∧
    loadWord intMem 8200 = some 24576 ∧
    loadWord intMem 8200 ≠ some 42 := by
  decide

/-- C3 (evaluation of the code): on the handle of a null pointer of a pointer type,
`Interface` returns the data word 8200, the address of the data field of the argument
copy, and not the null pointer held in that field. -/
theorem Interface_nil_pointer_data :
    Holds stdOffsets nilPtrMem 8192 nilPtrValue ∧
    nilPtrValue.Kind ≠ kindInterface ∧
    loadByte nilPtrMem (uadd nilPtrValue.typ stdOffsets.typKindOffset)
      = some (22 ||| kindDirectIface) ∧
    nilPtrValue.flag &&& flagIndir = 0 ∧ nilPtrValue.flag &&& flagAddr = 0 ∧
    nilPtrValue.ptr = 0 ∧
    (Interface stdOffsets nilPtrMem 8192 nilPtrValue).out = .ret ⟨16384, 8200⟩ ∧
    (Interface stdOffsets nilPtrMem 8192 nilPtrValue).out ≠ .ret ⟨16384, nilPtrValue.ptr⟩ := by
  decide

/-- C4 (evaluation of the code): on the zero handle `Interface` does not return the nil
interface; it loads the kind byte at the null type address plus the kind offset, 23, and
ends in the fault of that load. -/
theorem Interface_zero_value_faults :
    Holds stdOffsets zeroMem 8192 zeroValue ∧
    zeroValue.Kind ≠ kindInterface ∧
    (Interface stdOffsets zeroMem 8192 zeroValue).out = .fault 23 ∧
    (Interface stdOffsets zeroMem 8192 zeroValue).out ≠ .ret nilIface := by
  decide

/-- C5 (evaluation of the code): on a handle of kind `Interface` whose data field holds
the address 24576 of the interface (32768, 40960), `Interface` returns the two words
stored at the data field itself, the address 24576 and the flag word 404. -/
theorem Interface_interface_kind_words :
    Holds stdOffsets ifaceMem 8192 ifaceValue ∧
    ifaceValue.Kind = kindInterface ∧
    loadIface ifaceMem ifaceValue.ptr = some ⟨32768, 40960⟩ ∧
    (Interface stdOffsets ifaceMem 8192 ifaceValue).out = .ret ⟨24576, 404⟩ ∧
    (Interface stdOffsets ifaceMem 8192 ifaceValue).out ≠ .ret ⟨32768, 40960⟩ := by
  decide

/-- C6: for every handle whose kind is not `Interface`, whose type address is not null,
whose kind byte has the direct bit clear and whose flag word has the indirect and the
addressable bits set, `Interface` returns the nil interface: no panic, no fault and no
container, whatever the data field and the other flag bits are. -/
theorem Interface_addressable_indirect_nil (off : Offsets) (m : Mem) (base : Nat)
    (v : Value) (k : Nat)
    (hv : Holds off m base v) (hkind : v.Kind ≠ kindInterface) (_htyp : v.typ ≠ 0)
    (hk : loadByte m (uadd v.typ off.typKindOffset) = some k)
    (hdirect : k &&& kindDirectIface = 0)
    (hindir : v.flag &&& flagIndir ≠ 0) (haddr : v.flag &&& flagAddr ≠ 0) :
    (Interface off m base v).out = .ret nilIface := by
  rw [Interface_of_not_interface off m base v k hv hkind hk]
  simp only [if_pos hdirect, if_neg hindir, if_pos haddr]

/-- C6 at a handle of a structure type reached through a pointer. -/
theorem Interface_addressable_indirect_nil_witness :
    Holds stdOffsets addrStructMem 8192 addrStructValue ∧
    (Interface stdOffsets addrStructMem 8192 addrStructValue).out = .ret nilIface :=
  ⟨by decide,
   Interface_addressable_indirect_nil stdOffsets addrStructMem 8192 addrStructValue 25
     (by decide) (by decide) (by decide) (by decide) (by decide) (by decide) (by decide)⟩

/-- C7: for every handle whose kind is not `Interface`, whose type address is not null
and whose kind byte can be read, `Interface` ends without returning if and only if the
direct bit of the kind byte and the indirect bit of the flag word are both clear; it
then ends in the panic "bad indir", whatever the addressable bit is; in every other case
it returns. -/
theorem Interface_fault_iff_bad_indir (off : Offsets) (m : Mem) (base : Nat)
    (v : Value) (k : Nat)
    (hv : Holds off m base v) (hkind : v.Kind ≠ kindInterface) (_htyp : v.typ ≠ 0)
    (hk : loadByte m (uadd v.typ off.typKindOffset) = some k) :
    ((Interface off m base v).out.isFault = true ↔
      (k &&& kindDirectIface = 0 ∧ v.flag &&& flagIndir = 0)) ∧
    ((k &&& kindDirectIface = 0 ∧ v.flag &&& flagIndir = 0) →
      (Interface off m base v).out = .panic badIndir) ∧
    (¬ (k &&& kindDirectIface = 0 ∧ v.flag &&& flagIndir = 0) →
      ∃ i, (Interface off m base v).out = .ret i) := by
  rw [Interface_of_not_interface off m base v k hv hkind hk]
  by_cases hd : k &&& kindDirectIface = 0
  · by_cases hi : v.flag &&& flagIndir = 0
    · simp [hd, hi, Outcome.isFault]
    · by_cases ha : v.flag &&& flagAddr = 0
      · simp [hd, hi, ha, Outcome.isFault]
      · simp [hd, hi, ha, Outcome.isFault]
  · by_cases hi : v.flag &&& flagIndir = 0
    · simp [hd, hi, Outcome.isFault]
    · simp [hd, hi, Outcome.isFault]

/-- C7 at a handle of kind `Int` whose flag word lacks the indirect bit and has the
addressable bit. -/
theorem Interface_fault_iff_bad_indir_witness :
    Holds stdOffsets badIntMem 8192 badIntValue ∧
    (Interface stdOffsets badIntMem 8192 badIntValue).out = .panic badIndir :=
  ⟨by decide,
   (Interface_fault_iff_bad_indir stdOffsets badIntMem 8192 badIntValue 2
     (by decide) (by decide) (by decide) (by decide)).2.1 (by decide)⟩

/-- C9 as stated fails: the run on the handle of the integer 42 assembles the container
(16384, 8200), and the second state of the container pairs the data word 8200 with a
null type word. -/
theorem Interface_data_before_typ_state :
    (Interface stdOffsets intMem 8192 intValue).out = .ret ⟨16384, 8200⟩ ∧
    ∃ s ∈ (Interface stdOffsets intMem 8192 intValue).hist, s.data ≠ 0 ∧ s.typ = 0 := by
  decide

/-- C9, amended: in every run of `Interface` that assembles a container (kind not
`Interface`, type address not null, neither the panic case nor the declined case), the
container goes through exactly the states (null, null), (null, d), (typ, d), where d is
the data word of the returned container: the data word is written first and the type
word last, so no state has a type word that is not null with a data word other than d. -/
theorem Interface_write_order (off : Offsets) (m : Mem) (base : Nat) (v : Value) (k : Nat)
    (hv : Holds off m base v) (hkind : v.Kind ≠ kindInterface) (_htyp : v.typ ≠ 0)
    (hk : loadByte m (uadd v.typ off.typKindOffset) = some k)
    (hpanic : ¬ (k &&& kindDirectIface = 0 ∧ v.flag &&& flagIndir = 0))
    (hdeclined : ¬ (k &&& kindDirectIface = 0 ∧ v.flag &&& flagIndir ≠ 0 ∧
      v.flag &&& flagAddr ≠ 0)) :
    ∃ d, (Interface off m base v).out = .ret ⟨v.typ, d⟩ ∧
      (Interface off m base v).hist = [⟨0, 0⟩, ⟨0, d⟩, ⟨v.typ, d⟩] ∧
      ∀ s ∈ (Interface off m base v).hist, s.typ ≠ 0 → s.data = d := by
  rw [Interface_of_not_interface off m base v k hv hkind hk]
  by_cases hd : k &&& kindDirectIface = 0
  · have hi : ¬ v.flag &&& flagIndir = 0 := fun h => hpanic ⟨hd, h⟩
    have ha : ¬ v.flag &&& flagAddr ≠ 0 := fun h => hdeclined ⟨hd, hi, h⟩
    rw [if_pos hd, if_neg hi, if_neg ha]
    refine ⟨uadd base off.ptrOffset, rfl, rfl, ?_⟩
    intro s hs hne
    simp only [List.mem_cons, List.mem_singleton, List.not_mem_nil, or_false] at hs
    rcases hs with rfl | rfl | rfl
    · exact absurd rfl hne
    · exact absurd rfl hne
    · rfl
  · rw [if_neg hd]
    by_cases hi : v.flag &&& flagIndir ≠ 0
    · rw [if_pos hi]
      refine ⟨v.ptr, rfl, rfl, ?_⟩
      intro s hs hne
      simp only [List.mem_cons, List.mem_singleton, List.not_mem_nil, or_false] at hs
      rcases hs with rfl | rfl | rfl
      · exact absurd rfl hne
      · exact absurd rfl hne
      · rfl
    · rw [if_neg hi]
      refine ⟨uadd base off.ptrOffset, rfl, rfl, ?_⟩
      intro s hs hne
      simp only [List.mem_cons, List.mem_singleton, List.not_mem_nil, or_false] at hs
      rcases hs with rfl | rfl | rfl
      · exact absurd rfl hne
      · exact absurd rfl hne
      · rfl

/-- C9, amended, at the indirect handle of a pointer type. -/
theorem Interface_write_order_witness :
    Holds stdOffsets indirPtrMem 8192 indirPtrValue ∧
    ∃ d, (Interface stdOffsets indirPtrMem 8192 indirPtrValue).out
        = .ret ⟨indirPtrValue.typ, d⟩ ∧
      (Interface stdOffsets indirPtrMem 8192 indirPtrValue).hist
        = [⟨0, 0⟩, ⟨0, d⟩, ⟨indirPtrValue.typ, d⟩] ∧
      ∀ s ∈ (Interface stdOffsets indirPtrMem 8192 indirPtrValue).hist,
        s.typ ≠ 0 → s.data = d :=
  ⟨by decide,
   Interface_write_order stdOffsets indirPtrMem 8192 indirPtrValue (22 ||| kindDirectIface)
     (by decide) (by decide) (by decide) (by decide) (by decide) (by decide)⟩

/-! ## The claims about `init` -/

/-- C8 as stated fails: the declared fields `typ`, `flag` are not the three expected
ones, the field `ptr` has disappeared, and `init` does not abort: it returns with the
offset of `ptr` left at zero. -/
theorem init_accepts_missing_field :
    shrunkValue.map (fun sf => sf.Name) = ["typ", "flag"] ∧
    init shrunkValue = .ok ⟨0, 0, 23, 8⟩ := by
  constructor
  · rfl
  · rfl

/-- C8, amended: when every declared field named `typ` is a pointer to a structure,
`init` aborts with the "unknown layout" panic if and only if some declared field has a
name other than `typ`, `ptr`, `flag`, or is named `typ` and points to a structure with
no field named `kind`; otherwise it returns.  (A declared field set from which one of
the three fields is missing is accepted.) -/
theorem init_unknownLayout_iff (t : List StructField)
    (hptr : ∀ sf ∈ t, sf.Name = "typ" → sf.Elem ≠ none) :
    (init t = .error .unknownLayout ↔ ∃ sf ∈ t, Rejected sf) ∧
    ((∃ o, init t = .ok o) ↔ ¬ ∃ sf ∈ t, Rejected sf) :=
  initLoop_outcome t ⟨0, 0, 0, 0⟩ hptr

/-- C8, amended, at a `reflect.Value` that has gained a field. -/
theorem init_unknownLayout_iff_witness :
    (∀ sf ∈ grownValue, sf.Name = "typ" → sf.Elem ≠ none) ∧
    init grownValue = .error .unknownLayout :=
  ⟨by decide,
   (init_unknownLayout_iff grownValue (by decide)).1.2
     ⟨⟨"extra", 24, none⟩, by decide, Or.inl ⟨by decide, by decide, by decide⟩⟩⟩

/-- C10 (evaluation of the code): on the layout `flag, typ, ptr`, in which `typ` is at
offset 8, `init` succeeds and saves the kind offset 31, while the field `kind` is at
offset 23 in the structure `typ` points to. -/
theorem init_reordered_kind_offset :
    init reorderedValue = .ok ⟨8, 16, 31, 0⟩ ∧
    FieldByName rtypeFields "kind" = some 23 := by
  constructor
  · rfl
  · rfl

end Valiface
